import Mathlib

/-!
Verification of the CLI display engine (`src/display/cli_display.py`) of the
py_xiaozhi_vietnamese repository, as a shallow embedding in Lean 4.

Pure data and arithmetic of the Python code are translated to Lean functions;
the stateful display object becomes explicit state passing over `DashState`;
terminal writes (`sys.stdout.write`) become lists of the written strings, in
order; the raw-mode reader becomes a function over the list of decoded input
units, producing a trace of terminal events.
-/

namespace CliDisplay

/-- State of the `CliDisplay` object: the fields set in `__init__` that the
update/render/close methods read and write.  `use_ansi` mirrors
`self._use_ansi = sys.stdout.isatty()`; `running`, `_last_drawn_rows` and the
four `_dash_*` fields and `_log_lines` are mirrored directly. -/
structure DashState where
  running : Bool
  use_ansi : Bool
  last_drawn_rows : Nat
  dash_status : String
  dash_connected : Bool
  dash_text : String
  dash_emotion : String
  log_lines : List String
deriving DecidableEq

/-- The state right after `CliDisplay.__init__` (with `_use_ansi` given by
whether stdout is a TTY). -/
def init_state (use_ansi : Bool) : DashState :=
  { running := true
    use_ansi := use_ansi
    last_drawn_rows := 0
    dash_status := ""
    dash_connected := false
    dash_text := ""
    dash_emotion := ""
    log_lines := [] }

/-- `self._input_area_lines = 3` from `__init__`. -/
def input_area_lines : Nat := 3

/-- `usable_rows = max(5, rows - self._input_area_lines)` from
`_render_dashboard`. -/
def usable_rows (rows : Nat) : Nat := max 5 (rows - input_area_lines)

/-- `body_rows = max(1, usable_rows - 4)` from `_render_dashboard`. -/
def body_rows (rows : Nat) : Nat := max 1 (usable_rows rows - 4)

/-- `total_rows = 4 + body_rows` from `_render_dashboard`. -/
def total_rows (rows : Nat) : Nat := 4 + body_rows rows

/-- `rows_to_clear = max(self._last_drawn_rows, total_rows)` from
`_render_dashboard`. -/
def rows_to_clear (last_drawn rows : Nat) : Nat := max last_drawn (total_rows rows)

/-- `separator_row = max(1, rows - self._input_area_lines + 1)` from
`_clear_input_area` / `_render_input_area` / `_redraw_input_line`. -/
def separator_row (rows : Nat) : Nat := max 1 (rows - input_area_lines + 1)

/-- `first_input_row = min(rows, separator_row + 1)`. -/
def first_input_row (rows : Nat) : Nat := min rows (separator_row rows + 1)

/-- `second_input_row = min(rows, separator_row + 2)`. -/
def second_input_row (rows : Nat) : Nat := min rows (separator_row rows + 2)

/-- The three terminal rows written by `_render_input_area` and blanked by
`_clear_input_area`: separator row plus the two input rows. -/
def input_area_rows (rows : Nat) : List Nat :=
  [separator_row rows, first_input_row rows, second_input_row rows]

/-- The terminal rows written by the draw phase of `_render_dashboard` in a
TTY: it addresses rows `1, 2, 3`, then `4 .. 3 + body_rows`, then
`4 + body_rows`, i.e. exactly rows `1 .. total_rows`. -/
def dash_area_rows (rows : Nat) : List Nat := List.range' 1 (total_rows rows)

/-- Python `str.lower()`, character by character (`Char.toLower` covers the
ASCII letters that the command set and the claims use). -/
def pyLower (s : String) : String := String.mk (s.data.map Char.toLower)

/-- Python `str.strip()`: drop whitespace from both ends. -/
def pyStrip (s : String) : String :=
  String.mk (((s.data.dropWhile Char.isWhitespace).reverse.dropWhile
    Char.isWhitespace).reverse)

/-- `_term_size`: `shutil.get_terminal_size(fallback=(80, 24))` wrapped in
`try/except`; the OS query is modelled as an `Except` value, and any failure
yields the fallback `(80, 24)`. -/
def term_size (query : Except Unit (Nat × Nat)) : Nat × Nat :=
  match query with
  | Except.ok s => s
  | Except.error _ => (80, 24)

/-- `_goto(row, col)`: writes `"\x1b[{max(1,row)};{max(1,col)}H"`. -/
def goto_str (row col : Nat) : String :=
  "\x1b[" ++ toString (max 1 row) ++ ";" ++ toString (max 1 col) ++ "H"

/-- The ANSI escape-code table `self._ansi` from `__init__`. -/
def ansi_code (name : String) : String :=
  if name = "reset" then "\x1b[0m"
  else if name = "bold" then "\x1b[1m"
  else if name = "dim" then "\x1b[2m"
  else if name = "blue" then "\x1b[34m"
  else if name = "cyan" then "\x1b[36m"
  else if name = "green" then "\x1b[32m"
  else if name = "yellow" then "\x1b[33m"
  else if name = "magenta" then "\x1b[35m"
  else ""

/-- `style(s, *names)` from `_render_dashboard`: prefix the ANSI codes of the
requested names and append the reset code; identity when not a TTY. -/
def style (use_ansi : Bool) (s : String) (names : List String) : String :=
  if !use_ansi then s
  else String.join (names.map ansi_code) ++ s ++ ansi_code "reset"

/-- `trunc(s, limit=80)` from `_render_dashboard`: truncate to `limit - 1`
characters plus an ellipsis when longer than `limit`. -/
def trunc (s : String) (limit : Nat) : String :=
  if s.length ≤ limit then s else s.take (limit - 1) ++ "…"

/-- The four primary dashboard lines built at the top of `_render_dashboard`. -/
def dash_lines (st : DashState) : List String :=
  [ "Status: " ++ trunc st.dash_status 80,
    "Connection: " ++ (if st.dash_connected then "Connected" else "Disconnected"),
    "Emotion: " ++ trunc st.dash_emotion 80,
    "Text: " ++ trunc st.dash_text 80 ]

/-- A string made of `n` copies of character `c` (Python `c * n`). -/
def repChar (c : Char) (n : Nat) : String := String.mk (List.replicate n c)

/-- Python `str.center(width)` (CPython `do_center`): pad with spaces,
`left = marg // 2 + (marg & width & 1)`. -/
def pyCenter (s : String) (width : Nat) : String :=
  if width ≤ s.length then s
  else
    let marg := width - s.length
    let left := marg / 2 + (marg &&& width &&& 1)
    repChar ' ' left ++ s ++ repChar ' ' (marg - left)

/-- Python `str.ljust(width)`: pad on the right with spaces up to `width`. -/
def ljust (s : String) (width : Nat) : String :=
  if width ≤ s.length then s else s ++ repChar ' ' (width - s.length)

/-- The clear phase of `_render_dashboard`: for `i in range(rows_to_clear)`,
`_goto(1 + i, 1)` then write `"\x1b[2K"`. -/
def clear_writes (n : Nat) : List String :=
  (List.range n).flatMap (fun i => [goto_str (1 + i) 1, "\x1b[2K"])

/-- The draw phase of `_render_dashboard` in a TTY: top bar, centred title,
separator, body rows, bottom bar — each addressed with `_goto` and truncated
to `cols` characters. -/
def draw_writes (st : DashState) (cols rows : Nat) : List String :=
  let lines := dash_lines st
  let title := style true " XiaoZhi AI Terminal " ["bold", "cyan"]
  let w := max 2 (cols - 2)
  let top_bar := "┌" ++ repChar '─' w ++ "┐"
  let title_line := "│" ++ pyCenter title w ++ "│"
  let sep_line := "├" ++ repChar '─' w ++ "┤"
  let bottom_bar := "└" ++ repChar '─' w ++ "┘"
  let b := body_rows rows
  let body := (List.range b).map (fun i =>
    let text := lines.getD i ""
    let text := if i = 0 then style true text ["green"] else text
    "│" ++ (ljust text w).take w ++ "│")
  [goto_str 1 1, "\x1b[2K" ++ top_bar.take cols,
   goto_str 2 1, "\x1b[2K" ++ title_line.take cols,
   goto_str 3 1, "\x1b[2K" ++ sep_line.take cols]
  ++ (List.range b).flatMap (fun idx =>
       [goto_str (4 + idx) 1, "\x1b[2K", (body.getD idx "").take cols])
  ++ [goto_str (4 + b) 1, "\x1b[2K" ++ bottom_bar.take cols]

/-- `_render_dashboard`: in a non-TTY, print only the status line in place and
leave the state untouched; in a TTY, save the cursor, clear
`max(last_drawn_rows, total_rows)` rows, draw the frame, restore the cursor,
and record `last_drawn_rows := total_rows`.  The second component is the list
of strings written to stdout, in order. -/
def render_dashboard (st : DashState) (cols rows : Nat) : DashState × List String :=
  if !st.use_ansi then
    (st, ["\r" ++ (dash_lines st).headD "" ++ "        "])
  else
    ({ st with last_drawn_rows := total_rows rows },
     ["\x1b7"]
       ++ clear_writes (rows_to_clear st.last_drawn_rows rows)
       ++ draw_writes st cols rows
       ++ ["\x1b8"])

/-- `update_button_status(text)`: set `_dash_text` and re-render. -/
def update_button_status (st : DashState) (text : String) (cols rows : Nat) :
    DashState × List String :=
  render_dashboard { st with dash_text := text } cols rows

/-- `update_status(status, connected)`: set the two fields and re-render. -/
def update_status (st : DashState) (status : String) (connected : Bool)
    (cols rows : Nat) : DashState × List String :=
  render_dashboard { st with dash_status := status, dash_connected := connected }
    cols rows

/-- `update_text(text)`: only when `text and text.strip()` is truthy, set
`_dash_text` to the stripped text and re-render; otherwise do nothing. -/
def update_text (st : DashState) (text : String) (cols rows : Nat) :
    DashState × List String :=
  if text ≠ "" ∧ pyStrip text ≠ "" then
    render_dashboard { st with dash_text := pyStrip text } cols rows
  else (st, [])

/-- `update_emotion(emotion_name)`: set `_dash_emotion` and re-render. -/
def update_emotion (st : DashState) (emotion_name : String) (cols rows : Nat) :
    DashState × List String :=
  render_dashboard { st with dash_emotion := emotion_name } cols rows

/-- `close()`: set `self.running = False` and print the farewell line. -/
def close (st : DashState) : DashState × List String :=
  ({ st with running := false }, ["\nClosing application...\n"])

/-- The help legend written by `_print_help`. -/
def help_text : String :=
  "r: start/stop | x: abort | q: quit | h: help | others: send text"

/-- `_print_help()`: write the legend into the dashboard text field; no
terminal output, no render. -/
def print_help (st : DashState) : DashState := { st with dash_text := help_text }

/-- Which of the optional callbacks (`set_callbacks`) are registered. -/
structure Callbacks where
  auto_callback : Bool
  abort_callback : Bool
  send_text_callback : Bool

/-- The externally visible callback action taken by `_handle_command`:
putting a registered callback on `self.command_queue`, or directly awaiting
`self.send_text_callback(cmd)`.  `enqueueSendText` is never produced by the
code; it exists so that enqueueing the free-text callback is expressible. -/
inductive Action where
  | enqueueAuto
  | enqueueAbort
  | enqueueSendText (text : String)
  | invokeSendText (text : String)
  | noAction
deriving DecidableEq

/-- `_handle_command(cmd)`: `q` closes, `h` writes the help legend into the
dashboard, `r`/`x` enqueue the registered callback (if any) onto
`command_queue`, and anything else directly awaits
`send_text_callback(cmd)` when registered.  Result: new state, stdout
writes, callback action. -/
def handle_command (cbs : Callbacks) (st : DashState) (cmd : String) :
    DashState × List String × Action :=
  if cmd = "q" then
    let r := close st
    (r.1, r.2, Action.noAction)
  else if cmd = "h" then (print_help st, [], Action.noAction)
  else if cmd = "r" then
    (st, [], if cbs.auto_callback then Action.enqueueAuto else Action.noAction)
  else if cmd = "x" then
    (st, [], if cbs.abort_callback then Action.enqueueAbort else Action.noAction)
  else
    (st, [],
     if cbs.send_text_callback then Action.invokeSendText cmd else Action.noAction)

/-- One turn of `_keyboard_input_loop` handling a completed line: the loop
calls `self._handle_command(cmd.lower().strip())`. -/
def handle_line (cbs : Callbacks) (st : DashState) (line : String) :
    DashState × List String × Action :=
  handle_command cbs st (pyStrip (pyLower line))

/-! ### Log interceptor (`_install_log_handler`) -/

/-- `logging.WARNING`. -/
def WARNING : Nat := 30

/-- An ingested `logging.LogRecord`, restricted to the fields the handler's
formatter reads. -/
structure LogRecord where
  asctime : String
  name : String
  levelno : Nat
  levelname : String
  message : String
deriving DecidableEq

/-- The handler's formatter:
`"%(asctime)s [%(name)s] - %(levelname)s - %(message)s"`. -/
def format_record (r : LogRecord) : String :=
  r.asctime ++ " [" ++ r.name ++ "] - " ++ r.levelname ++ " - " ++ r.message

/-- `collections.deque(maxlen=6).append`: append on the right, evicting from
the left when the result would exceed 6 entries. -/
def dequeAppend (q : List String) (x : String) : List String :=
  if 6 < (q ++ [x]).length then (q ++ [x]).drop ((q ++ [x]).length - 6)
  else q ++ [x]

/-- `_DisplayLogHandler.emit` composed with the handler's level filter
(`handler.setLevel(logging.WARNING)`): records below WARNING never reach
`emit`; those at or above it are formatted and appended to `_log_lines`. -/
def ingest (q : List String) (r : LogRecord) : List String :=
  if WARNING ≤ r.levelno then dequeAppend q (format_record r) else q

/-- A whole stream of records delivered to the installed handler. -/
def ingest_all (q : List String) (rs : List LogRecord) : List String :=
  rs.foldl ingest q

/-- The last `n` elements of a list. -/
def takeLast (n : Nat) (l : List String) : List String := l.drop (l.length - n)

/-- A concrete WARNING-level record with message `m` (test fixture). -/
def wrec (m : String) : LogRecord :=
  { asctime := "2025-01-01 00:00:00", name := "app", levelno := 30,
    levelname := "WARNING", message := m }

/-- Seven sequential WARNING-level records (test fixture). -/
def wrecs7 : List LogRecord :=
  [wrec "1", wrec "2", wrec "3", wrec "4", wrec "5", wrec "6", wrec "7"]

/-! ### Raw input reader (`_read_line_raw`, `_redraw_input_line`) -/

/-- A terminal-level event of the raw reader: `tty.setraw(fd)`, a stdout
write, or `termios.tcsetattr(fd, TCSADRAIN, old_settings)`.  The saved
terminal mode is abstracted as a `Nat`. -/
inductive TermEvent where
  | setRaw
  | writeOut (s : String)
  | restoreMode (saved : Nat)
deriving DecidableEq

/-- The input prompt from `_redraw_input_line` / `_render_input_area`. -/
def prompt_str (use_ansi : Bool) : String :=
  if !use_ansi then "Input: " else "\x1b[1m\x1b[36mInput:\x1b[0m "

/-- `max_len = max(1, cols - len("Input: ") - 1)` from `_redraw_input_line`. -/
def input_max_len (cols : Nat) : Nat := max 1 (cols - "Input: ".length - 1)

/-- The tail-truncation of `_redraw_input_line`: keep the last `max_len`
characters when the content is longer. -/
def visible_tail (cols : Nat) (content : String) : String :=
  if input_max_len cols < content.length then content.takeRight (input_max_len cols)
  else content

/-- `_redraw_input_line(content)`: go to the first input row, clear the line,
and rewrite prompt plus (tail-truncated) content. -/
def redraw_input_line (use_ansi : Bool) (cols rows : Nat) (content : String) :
    List TermEvent :=
  [TermEvent.writeOut (goto_str (first_input_row rows) 1),
   TermEvent.writeOut "\x1b[2K",
   TermEvent.writeOut (prompt_str use_ansi ++ visible_tail cols content)]

/-- Outcome of handling one decoded unit in the `_read_line_raw` loop. -/
inductive StepOut where
  | finished
  | interrupted
  | continued (buffer : List String)
deriving DecidableEq

/-- The body of the `_read_line_raw` loop for one decoded unit `s`, acting on
the accumulated `buffer`: Enter ends the line (echoing `"\r\n"`), backspace
pops the last unit (when any) and redraws the whole line, Ctrl-C raises
`KeyboardInterrupt`, anything else is appended and the line is redrawn. -/
def process_unit (use_ansi : Bool) (cols rows : Nat) (buffer : List String)
    (s : String) : StepOut × List TermEvent :=
  if s = "\r" ∨ s = "\n" then (StepOut.finished, [TermEvent.writeOut "\r\n"])
  else if s = "\x7f" ∨ s = "\x08" then
    let buffer2 := if buffer = [] then buffer else buffer.dropLast
    (StepOut.continued buffer2,
     redraw_input_line use_ansi cols rows (String.join buffer2))
  else if s = "\x03" then (StepOut.interrupted, [])
  else
    let buffer2 := buffer ++ [s]
    (StepOut.continued buffer2,
     redraw_input_line use_ansi cols rows (String.join buffer2))

/-- The `while True` loop of `_read_line_raw` over the stream of decoded
units (an exhausted stream models `os.read` returning no bytes, which breaks
the loop).  `Except.error ()` is the `KeyboardInterrupt` path. -/
def read_loop (use_ansi : Bool) (cols rows : Nat) (buffer : List String) :
    List String → (Except Unit String) × List TermEvent
  | [] => (Except.ok (String.join buffer), [])
  | s :: rest =>
    match process_unit use_ansi cols rows buffer s with
    | (StepOut.finished, ev) => (Except.ok (String.join buffer), ev)
    | (StepOut.interrupted, ev) => (Except.error (), ev)
    | (StepOut.continued buffer2, ev) =>
      let r := read_loop use_ansi cols rows buffer2 rest
      (r.1, ev ++ r.2)

/-- `_read_line_raw`: save the terminal mode, enter raw mode, run the read
loop, and — in the `finally` block, on the normal and the interrupt path
alike — restore the saved mode. -/
def read_line_raw (saved : Nat) (use_ansi : Bool) (cols rows : Nat)
    (input : List String) : (Except Unit String) × List TermEvent :=
  let r := read_loop use_ansi cols rows [] input
  (r.1, TermEvent.setRaw :: (r.2 ++ [TermEvent.restoreMode saved]))

/-! ### Helper lemmas -/

/-- A dashboard render always writes something: the non-TTY branch prints the
status line, the TTY branch begins with the save-cursor sequence. -/
theorem render_out_ne_nil (st : DashState) (cols rows : Nat) :
    (render_dashboard st cols rows).2 ≠ [] := by
  unfold render_dashboard
  cases h : st.use_ansi <;> simp [h]

/-- The state part of a render: untouched in a non-TTY, otherwise only
`_last_drawn_rows` is overwritten with the new total. -/
theorem render_state_eq (st : DashState) (cols rows : Nat) :
    (render_dashboard st cols rows).1 =
      if st.use_ansi then { st with last_drawn_rows := total_rows rows } else st := by
  unfold render_dashboard
  cases h : st.use_ansi <;> simp [h]

/-- Joining after appending one unit appends that unit's text. -/
theorem join_concat (l : List String) (s : String) :
    String.join (l ++ [s]) = String.join l ++ s := by
  simp [String.join, List.foldl_append]

end CliDisplay

namespace CliDisplay

/-- C8: `_term_size` never raises: a successful OS query is returned as is,
and any query failure yields the fallback `(80, 24)`.  (The embedding is a
total function, so no exception escapes.) -/
theorem C8_term_size_contract (c r : Nat) :
    term_size (Except.ok (c, r)) = (c, r) ∧
    term_size (Except.error ()) = (80, 24) :=
  ⟨rfl, rfl⟩

/-- C3 counterexample: on a 7-row terminal the dashboard area
(rows 1..max(5, rows−3) = 1..5, because of the 5-row minimum) and the input
area (rows 5, 6, 7) share row 5, so the claimed disjointness for every
geometry with rows ≥ 1 is false. -/
theorem C3_cex_rows7 : 5 ∈ dash_area_rows 7 ∧ 5 ∈ input_area_rows 7 := by decide

/-- C3 amended: for every terminal with at least 8 rows, the rows drawn by
`_render_dashboard` (1..total_rows) and the rows used by the input area
(separator and the two input rows) are disjoint. -/
theorem C3_areas_disjoint_of_rows_ge8 (rows : Nat) (h : 8 ≤ rows) :
    List.Disjoint (dash_area_rows rows) (input_area_rows rows) := by
  intro a ha hb
  rw [dash_area_rows, List.mem_range'_1] at ha
  simp only [total_rows, body_rows, usable_rows, input_area_lines] at ha
  simp only [input_area_rows, separator_row, first_input_row, second_input_row,
    input_area_lines, List.mem_cons, List.not_mem_nil, or_false] at hb
  rcases hb with hb | hb | hb <;> omega

/-- C3 witness: the amended disjointness at the standard 80×24 geometry. -/
theorem C3_witness :
    8 ≤ 24 ∧ List.Disjoint (dash_area_rows 24) (input_area_rows 24) :=
  ⟨by decide, C3_areas_disjoint_of_rows_ge8 24 (by decide)⟩

/-- C6: on every exit path of `_read_line_raw` — normal completion of a line,
end of input, or Ctrl-C interruption — the last terminal event is the
restoration of the terminal mode saved at entry. -/
theorem C6_mode_restored_on_every_exit (saved : Nat) (use_ansi : Bool)
    (cols rows : Nat) (input : List String) :
    ((read_line_raw saved use_ansi cols rows input).2).getLast? =
      some (TermEvent.restoreMode saved) := by
  have h : (read_line_raw saved use_ansi cols rows input).2 =
      TermEvent.setRaw ::
        ((read_loop use_ansi cols rows [] input).2 ++ [TermEvent.restoreMode saved]) :=
    rfl
  rw [h, ← List.cons_append, List.getLast?_concat]

/-- C10: handling the help command mutates only the dashboard free-text field
(to the help legend), emits no terminal output, and triggers no callback
action or render; every other state field is unchanged. -/
theorem C10_help_sets_text_only (cbs : Callbacks) (st : DashState) :
    handle_line cbs st "h" = (print_help st, [], Action.noAction) ∧
    (print_help st).dash_text = help_text ∧
    (print_help st).dash_status = st.dash_status ∧
    (print_help st).dash_connected = st.dash_connected ∧
    (print_help st).dash_emotion = st.dash_emotion ∧
    (print_help st).log_lines = st.log_lines ∧
    (print_help st).last_drawn_rows = st.last_drawn_rows ∧
    (print_help st).running = st.running ∧
    (print_help st).use_ansi = st.use_ansi :=
  ⟨rfl, rfl, rfl, rfl, rfl, rfl, rfl, rfl, rfl⟩

/-- A render never changes the `running` flag. -/
theorem render_preserves_running (st : DashState) (cols rows : Nat) :
    (render_dashboard st cols rows).1.running = st.running := by
  unfold render_dashboard
  cases h : st.use_ansi <;> simp [h]

/-- C2 counterexample: after `close()` has run, a concrete `update_status`
call still emits terminal output (the claim says it emits none). -/
theorem C2_cex_update_after_close :
    (update_status (close (init_state true)).1 "Ready" true 80 24).2 ≠ [] :=
  render_out_ne_nil _ _ _

/-- C2 amended: after `close()` the state-update calls are still accepted
(they are total and leave `running` false), but each of them still triggers a
dashboard render and emits terminal output — nothing in the update path
checks the closed flag; `close()` only clears `running`, which is read by the
input and dispatcher loops. -/
theorem C2_updates_after_close_still_render (st : DashState)
    (status text emo btn : String) (connected : Bool) (cols rows : Nat)
    (htext : pyStrip text ≠ "") :
    (update_status (close st).1 status connected cols rows).1.running = false ∧
    (update_status (close st).1 status connected cols rows).2 ≠ [] ∧
    (update_emotion (close st).1 emo cols rows).2 ≠ [] ∧
    (update_button_status (close st).1 btn cols rows).2 ≠ [] ∧
    (update_text (close st).1 text cols rows).2 ≠ [] := by
  have htne : text ≠ "" := by
    intro h
    rw [h] at htext
    exact htext rfl
  refine ⟨?_, render_out_ne_nil _ _ _, render_out_ne_nil _ _ _,
    render_out_ne_nil _ _ _, ?_⟩
  · unfold update_status
    rw [render_preserves_running]
    rfl
  · unfold update_text
    rw [if_pos ⟨htne, htext⟩]
    exact render_out_ne_nil _ _ _

/-- C2 witness: the amended statement at a concrete closed session. -/
theorem C2_witness :
    pyStrip "hi" ≠ "" ∧
    ((update_status (close (init_state true)).1 "Listening" true 80 24).1.running
        = false ∧
     (update_status (close (init_state true)).1 "Listening" true 80 24).2 ≠ [] ∧
     (update_emotion (close (init_state true)).1 "happy" 80 24).2 ≠ [] ∧
     (update_button_status (close (init_state true)).1 "Start" 80 24).2 ≠ [] ∧
     (update_text (close (init_state true)).1 "hi" 80 24).2 ≠ []) :=
  ⟨by decide,
   C2_updates_after_close_still_render (init_state true) "Listening" "hi" "happy"
     "Start" true 80 24 (by decide)⟩

/-- C4 counterexample: `update_text` with an empty string triggers no render
at all (no output, unchanged state), so "every call to updateText triggers a
dashboard re-render" is false. -/
theorem C4_cex_empty_text_no_render :
    update_text (init_state true) "" 80 24 = (init_state true, []) := by decide

/-- C4 amended: `update_status`, `update_emotion` and `update_button_status`
always trigger a dashboard re-render; `update_text` does so exactly when the
text is non-empty after stripping (a blank text is a complete no-op).  Each
of the four is idempotent: repeating a call with the same argument leaves the
state fixed, and the repeated call is precisely a re-render of that fixed
state, so the rendered frame is unchanged. -/
theorem C4_updates_render_and_idempotent (st : DashState)
    (status emo btn text : String) (connected : Bool) (cols rows : Nat)
    (htext : pyStrip text ≠ "") :
    (update_status st status connected cols rows).2 ≠ [] ∧
    (update_emotion st emo cols rows).2 ≠ [] ∧
    (update_button_status st btn cols rows).2 ≠ [] ∧
    (update_text st text cols rows).2 ≠ [] ∧
    update_text st "" cols rows = (st, []) ∧
    update_status (update_status st status connected cols rows).1 status connected
        cols rows
      = render_dashboard (update_status st status connected cols rows).1 cols rows ∧
    (update_status (update_status st status connected cols rows).1 status connected
        cols rows).1
      = (update_status st status connected cols rows).1 ∧
    update_emotion (update_emotion st emo cols rows).1 emo cols rows
      = render_dashboard (update_emotion st emo cols rows).1 cols rows ∧
    (update_emotion (update_emotion st emo cols rows).1 emo cols rows).1
      = (update_emotion st emo cols rows).1 ∧
    update_button_status (update_button_status st btn cols rows).1 btn cols rows
      = render_dashboard (update_button_status st btn cols rows).1 cols rows ∧
    (update_button_status (update_button_status st btn cols rows).1 btn cols rows).1
      = (update_button_status st btn cols rows).1 ∧
    update_text (update_text st text cols rows).1 text cols rows
      = render_dashboard (update_text st text cols rows).1 cols rows ∧
    (update_text (update_text st text cols rows).1 text cols rows).1
      = (update_text st text cols rows).1 := by
  have htne : text ≠ "" := by
    intro h
    rw [h] at htext
    exact htext rfl
  rcases st with ⟨run, ua, ldr, ds, dc, dt, de, ll⟩
  cases ua <;>
    simp [update_status, update_emotion, update_button_status, update_text,
      render_dashboard, htne, htext]

/-- C4 witness: the amended statement at a concrete state and inputs. -/
theorem C4_witness :
    pyStrip "hello" ≠ "" ∧
    ((update_status (init_state true) "Ready" true 80 24).2 ≠ [] ∧
     (update_emotion (init_state true) "happy" 80 24).2 ≠ [] ∧
     (update_button_status (init_state true) "Start" 80 24).2 ≠ [] ∧
     (update_text (init_state true) "hello" 80 24).2 ≠ [] ∧
     update_text (init_state true) "" 80 24 = (init_state true, []) ∧
     update_status (update_status (init_state true) "Ready" true 80 24).1 "Ready"
         true 80 24
       = render_dashboard (update_status (init_state true) "Ready" true 80 24).1
           80 24 ∧
     (update_status (update_status (init_state true) "Ready" true 80 24).1 "Ready"
         true 80 24).1
       = (update_status (init_state true) "Ready" true 80 24).1 ∧
     update_emotion (update_emotion (init_state true) "happy" 80 24).1 "happy" 80 24
       = render_dashboard (update_emotion (init_state true) "happy" 80 24).1 80 24 ∧
     (update_emotion (update_emotion (init_state true) "happy" 80 24).1 "happy"
         80 24).1
       = (update_emotion (init_state true) "happy" 80 24).1 ∧
     update_button_status (update_button_status (init_state true) "Start" 80 24).1
         "Start" 80 24
       = render_dashboard (update_button_status (init_state true) "Start" 80 24).1
           80 24 ∧
     (update_button_status (update_button_status (init_state true) "Start" 80 24).1
         "Start" 80 24).1
       = (update_button_status (init_state true) "Start" 80 24).1 ∧
     update_text (update_text (init_state true) "hello" 80 24).1 "hello" 80 24
       = render_dashboard (update_text (init_state true) "hello" 80 24).1 80 24 ∧
     (update_text (update_text (init_state true) "hello" 80 24).1 "hello" 80 24).1
       = (update_text (init_state true) "hello" 80 24).1) :=
  ⟨by decide,
   C4_updates_render_and_idempotent (init_state true) "Ready" "happy" "Start"
     "hello" true 80 24 (by decide)⟩

/-- C1 counterexample: for the typed line `"Hello World"` with all callbacks
registered, `_handle_command` directly awaits the free-text callback with the
lowercased, stripped text — it does not enqueue it on the command queue and
it does not pass the raw text; and for an empty line it still invokes the
callback (with `""`), which the claim rules out. -/
theorem C1_cex_direct_invocation :
    (handle_line ⟨true, true, true⟩ (init_state true) "Hello World").2.2
        = Action.invokeSendText "hello world" ∧
    Action.invokeSendText "hello world" ≠ Action.enqueueSendText "Hello World" ∧
    (handle_line ⟨true, true, true⟩ (init_state true) "").2.2
        = Action.invokeSendText "" := by
  refine ⟨by decide, by decide, by decide⟩

/-- C1 amended: for every completed line whose lowercased, stripped form is
none of `q`/`h`/`r`/`x`, when the free-text callback is registered, the
classifier directly awaits that callback (it is not put on the command
queue's FIFO) with the lowercased, stripped text as argument — including the
empty line; the display state and terminal output are untouched. -/
theorem C1_free_text_directly_invoked (cbs : Callbacks) (st : DashState)
    (line : String) (hcb : cbs.send_text_callback = true)
    (h1 : pyStrip (pyLower line) ≠ "q") (h2 : pyStrip (pyLower line) ≠ "h")
    (h3 : pyStrip (pyLower line) ≠ "r") (h4 : pyStrip (pyLower line) ≠ "x") :
    handle_line cbs st line
      = (st, [], Action.invokeSendText (pyStrip (pyLower line))) := by
  unfold handle_line handle_command
  simp [h1, h2, h3, h4, hcb]

/-- C1 witness: the amended statement at the concrete line `"Hello World"`. -/
theorem C1_witness :
    ((⟨true, true, true⟩ : Callbacks).send_text_callback = true) ∧
    pyStrip (pyLower "Hello World") ≠ "q" ∧
    pyStrip (pyLower "Hello World") ≠ "h" ∧
    pyStrip (pyLower "Hello World") ≠ "r" ∧
    pyStrip (pyLower "Hello World") ≠ "x" ∧
    pyStrip (pyLower "Hello World") = "hello world" ∧
    handle_line ⟨true, true, true⟩ (init_state true) "Hello World"
      = (init_state true, [],
         Action.invokeSendText (pyStrip (pyLower "Hello World"))) :=
  ⟨rfl, by decide, by decide, by decide, by decide, by decide,
   C1_free_text_directly_invoked ⟨true, true, true⟩ (init_state true) "Hello World"
     rfl (by decide) (by decide) (by decide) (by decide)⟩

/-- C9: the row-clear is monotone over consecutive renders: after a render
drew `R1 = total_rows rows1` rows, a second render whose own frame is
smaller (`total_rows rows2 < R1`) still clears exactly
`max(last_drawn_rows, total_rows) = R1` rows — the clear writes for all `R1`
rows appear in its output before the draw writes, so no stale row of the
taller frame survives. -/
theorem C9_shrinking_render_clears_prev (st : DashState)
    (cols1 rows1 cols2 rows2 : Nat) (hansi : st.use_ansi = true)
    (hshrink : total_rows rows2 < total_rows rows1) :
    ((render_dashboard st cols1 rows1).1).last_drawn_rows = total_rows rows1 ∧
    rows_to_clear ((render_dashboard st cols1 rows1).1).last_drawn_rows rows2
      = total_rows rows1 ∧
    (render_dashboard (render_dashboard st cols1 rows1).1 cols2 rows2).2
      = ["\x1b7"] ++ clear_writes (total_rows rows1)
          ++ draw_writes (render_dashboard st cols1 rows1).1 cols2 rows2
          ++ ["\x1b8"] := by
  have hmax : Nat.max (total_rows rows1) (total_rows rows2) = total_rows rows1 :=
    Nat.max_eq_left (Nat.le_of_lt hshrink)
  rcases st with ⟨run, ua, ldr, ds, dc, dt, de, ll⟩
  cases ua
  · exact Bool.noConfusion hansi
  · refine ⟨rfl, hmax, ?_⟩
    show ["\x1b7"] ++ clear_writes (Nat.max (total_rows rows1) (total_rows rows2))
        ++ draw_writes (⟨run, true, total_rows rows1, ds, dc, dt, de, ll⟩ : DashState)
            cols2 rows2
        ++ ["\x1b8"]
      = ["\x1b7"] ++ clear_writes (total_rows rows1)
        ++ draw_writes (⟨run, true, total_rows rows1, ds, dc, dt, de, ll⟩ : DashState)
            cols2 rows2
        ++ ["\x1b8"]
    rw [hmax]

/-- C9 witness: a concrete shrink from a 24-row terminal (21 drawn rows) to
an 8-row terminal (5 drawn rows): the second render still clears 21 rows. -/
theorem C9_witness :
    (init_state true).use_ansi = true ∧
    total_rows 8 < total_rows 24 ∧
    (((render_dashboard (init_state true) 80 24).1).last_drawn_rows
        = total_rows 24 ∧
     rows_to_clear ((render_dashboard (init_state true) 80 24).1).last_drawn_rows 8
        = total_rows 24 ∧
     (render_dashboard (render_dashboard (init_state true) 80 24).1 80 8).2
        = ["\x1b7"] ++ clear_writes (total_rows 24)
            ++ draw_writes (render_dashboard (init_state true) 80 24).1 80 8
            ++ ["\x1b8"]) :=
  ⟨rfl, by decide,
   C9_shrinking_render_clears_prev (init_state true) 80 24 80 8 rfl (by decide)⟩

/-- C5: in the raw-mode reader, a backspace unit (`\x7f` or `\x08`) pops
exactly the last accumulated unit — one Unicode character when units were
accumulated one keystroke at a time — and triggers a full redraw of the input
line with the remaining content; on an empty buffer it leaves the buffer
empty and redraws an empty line.  In particular, typing the multi-byte
character `中` and then backspace yields an empty buffer and an empty
redrawn line. -/
theorem C5_backspace_pops_last_char (use_ansi : Bool) (cols rows : Nat)
    (init : List String) (u : String) (hu : u.length = 1) :
    (process_unit use_ansi cols rows (init ++ [u]) "\x7f").1
        = StepOut.continued init ∧
    (process_unit use_ansi cols rows (init ++ [u]) "\x7f").2
        = redraw_input_line use_ansi cols rows (String.join init) ∧
    String.join (init ++ [u]) = String.join init ++ u ∧
    (process_unit use_ansi cols rows [] "\x7f").1 = StepOut.continued [] ∧
    (process_unit use_ansi cols rows [] "\x7f").2
        = redraw_input_line use_ansi cols rows "" ∧
    read_line_raw 0 use_ansi cols rows ["中", "\x7f", "\r"]
      = (Except.ok "",
         TermEvent.setRaw ::
           (redraw_input_line use_ansi cols rows "中"
             ++ (redraw_input_line use_ansi cols rows ""
               ++ [TermEvent.writeOut "\r\n"])
             ++ [TermEvent.restoreMode 0])) := by
  have hne : init ++ [u] ≠ [] := by simp
  have hdl : (init ++ [u]).dropLast = init := by simp
  refine ⟨?_, ?_, join_concat init u, rfl, rfl, ?_⟩
  · simp [process_unit, hne, hdl]
  · simp [process_unit, hne, hdl]
  · rfl

/-- C5 witness: the backspace step at the concrete one-character multi-byte
buffer `["中"]`. -/
theorem C5_witness :
    ("中" : String).length = 1 ∧
    ((process_unit true 80 24 ([] ++ ["中"]) "\x7f").1 = StepOut.continued [] ∧
     (process_unit true 80 24 ([] ++ ["中"]) "\x7f").2
        = redraw_input_line true 80 24 (String.join []) ∧
     String.join ([] ++ ["中"]) = String.join [] ++ "中" ∧
     (process_unit true 80 24 [] "\x7f").1 = StepOut.continued [] ∧
     (process_unit true 80 24 [] "\x7f").2 = redraw_input_line true 80 24 "" ∧
     read_line_raw 0 true 80 24 ["中", "\x7f", "\r"]
       = (Except.ok "",
          TermEvent.setRaw ::
            (redraw_input_line true 80 24 "中"
              ++ (redraw_input_line true 80 24 ""
                ++ [TermEvent.writeOut "\r\n"])
              ++ [TermEvent.restoreMode 0]))) :=
  ⟨by decide, C5_backspace_pops_last_char true 80 24 [] "中" (by decide)⟩

/-- A bounded append is exactly keeping the last 6 of the appended list. -/
theorem dequeAppend_eq_takeLast (q : List String) (x : String) :
    dequeAppend q x = takeLast 6 (q ++ [x]) := by
  unfold dequeAppend takeLast
  split
  · rfl
  · rename_i h
    have h0 : (q ++ [x]).length - 6 = 0 := by omega
    rw [h0, List.drop_zero]

/-- Keeping the last `n` twice across an append is the same as once. -/
theorem takeLast_takeLast_append (n : Nat) (a l : List String) :
    takeLast n (takeLast n a ++ l) = takeLast n (a ++ l) := by
  unfold takeLast
  rcases le_or_lt a.length n with h | h
  · have h0 : a.length - n = 0 := by omega
    rw [h0, List.drop_zero]
  · have hta : (a.drop (a.length - n)).length = n := by
      rw [List.length_drop]
      omega
    rw [List.drop_append_eq_append_drop, List.drop_append_eq_append_drop,
      List.drop_drop]
    have e1 : a.length - n + ((a.drop (a.length - n) ++ l).length - n)
        = (a ++ l).length - n := by
      rw [List.length_append, List.length_append, hta]
      omega
    have e2 : (a.drop (a.length - n) ++ l).length - n - (a.drop (a.length - n)).length
        = (a ++ l).length - n - a.length := by
      rw [List.length_append, List.length_append, hta]
      omega
    rw [e1, e2]

/-- Folding the bounded append over a stream keeps exactly the last 6 of the
whole stream (starting from any buffer already within bound). -/
theorem foldl_dequeAppend (l : List String) : ∀ q : List String, q.length ≤ 6 →
    List.foldl dequeAppend q l = takeLast 6 (q ++ l) := by
  induction l with
  | nil =>
    intro q h
    rw [List.foldl_nil, List.append_nil]
    unfold takeLast
    have h0 : q.length - 6 = 0 := by omega
    rw [h0, List.drop_zero]
  | cons x l ih =>
    intro q h
    rw [List.foldl_cons]
    have hlen : (dequeAppend q x).length ≤ 6 := by
      unfold dequeAppend
      split
      · rw [List.length_drop]
        omega
      · rename_i hc
        omega
    rw [ih _ hlen, dequeAppend_eq_takeLast, takeLast_takeLast_append,
      List.append_assoc, List.singleton_append]

/-- When every record passes the WARNING filter, ingesting is folding the
bounded append over the formatted records. -/
theorem ingest_all_eq_deque (rs : List LogRecord) :
    ∀ q : List String, (∀ r ∈ rs, WARNING ≤ r.levelno) →
    ingest_all q rs = List.foldl dequeAppend q (rs.map format_record) := by
  induction rs with
  | nil => intro q _; rfl
  | cons r rs ih =>
    intro q hw
    show ingest_all (ingest q r) rs = _
    rw [List.map_cons, List.foldl_cons]
    have hr : WARNING ≤ r.levelno := hw r (List.mem_cons_self r rs)
    have he : ingest q r = dequeAppend q (format_record r) := by
      unfold ingest
      rw [if_pos hr]
    rw [he]
    exact ih _ (fun r2 h2 => hw r2 (List.mem_cons_of_mem r h2))

/-- C7: after ingesting any stream of more than 6 records all at WARNING
level or above, `_log_lines` holds exactly the formatted strings of the last
6 records, in arrival order (the `deque(maxlen=6)` silently evicts older
entries FIFO). -/
theorem C7_log_buffer_keeps_last_six (rs : List LogRecord)
    (hw : ∀ r ∈ rs, WARNING ≤ r.levelno) (hn : 6 < rs.length) :
    ingest_all [] rs = (rs.map format_record).drop (rs.length - 6) ∧
    (ingest_all [] rs).length = 6 := by
  have h1 : ingest_all [] rs = takeLast 6 (rs.map format_record) := by
    rw [ingest_all_eq_deque rs [] hw, foldl_dequeAppend _ [] (by simp),
      List.nil_append]
  have h2 : ingest_all [] rs = (rs.map format_record).drop (rs.length - 6) := by
    rw [h1]
    unfold takeLast
    rw [List.length_map]
  refine ⟨h2, ?_⟩
  rw [h2, List.length_drop, List.length_map]
  omega

/-- C7 witness: seven concrete WARNING records leave a 6-entry buffer holding
records 2 through 7 in order. -/
theorem C7_witness :
    6 < (wrecs7.length) ∧
    ingest_all [] wrecs7 = (wrecs7.map format_record).drop (wrecs7.length - 6) ∧
    (ingest_all [] wrecs7).length = 6 ∧
    ingest_all [] wrecs7
      = [format_record (wrec "2"), format_record (wrec "3"), format_record (wrec "4"),
         format_record (wrec "5"), format_record (wrec "6"), format_record (wrec "7")] :=
  ⟨by decide,
   (C7_log_buffer_keeps_last_six wrecs7 (by decide) (by decide)).1,
   (C7_log_buffer_keeps_last_six wrecs7 (by decide) (by decide)).2,
   by decide⟩

end CliDisplay
